import Mathlib

/-!
Shallow embedding of the Friday Bazar payments bot core
(`src/services/db.py`, `src/services/settings.py`,
`src/handlers/admin.py`, `src/handlers/payment.py`,
`src/handlers/free_subscription.py`, `src/utils/helpers.py`).

Python dicts holding user / order records are embedded as Lean
structures; the in-memory `Database` holds the users table as an
association list keyed by `str(user_id)` and the orders table as a
list, exactly mirroring `self._users : Dict[str, Dict]` and
`self._orders : List[Dict]`.  Money amounts (Python floats holding
currency values) are embedded as rationals.  Timestamps
(`datetime.now().isoformat()`) are threaded in as opaque string
parameters.  Async operations are embedded as pure state-passing
functions: each `async def` on the store becomes a function
`Database -> result × Database` (the single coarse `asyncio.Lock`
means each operation is one atomic step).
-/

namespace FridayBazar

/-- One entry of a user's `purchases` list
(`db.py`, `add_purchase_to_user`). -/
structure PurchaseEntry where
  order_id : String
  amount : ℚ
  date : String
deriving Repr, DecidableEq

/-- A user record, with exactly the fields created by
`Database.get_user` for a new user (`db.py` lines 146-160). -/
structure UserRec where
  user_id : Int
  coins : ℚ
  total_referrals : Int
  total_earned : ℚ
  referred_by : Option Int
  joined_at : String
  purchases : List PurchaseEntry
  language : String
  email : Option String
  subscription_plan : Option String
  subscription_service : Option String
  subscription_expiry : Option String
  subscription_status : String
deriving Repr, DecidableEq

/-- An order record.  `create_order` stores
`{"order_id":…, "created_at":…, "status":…, **order_data}`; the
fields below are the union of the keys used by the program's callers
(`_create_payment_order`, `receive_free_email`) and by later
`update_order` calls (screenshot, referral commission, fulfillment). -/
structure OrderRec where
  order_id : String
  created_at : String
  status : String
  user_id : Int
  username : String
  service_id : String
  service_name : String
  plan_duration : String
  amount : ℚ
  payment_screenshot : Option String
  user_details : Option String
  user_email : Option String
  referrer_id : Option Int
  commission_paid : Option ℚ
  activated_at : Option String
deriving Repr, DecidableEq

/-- The `order_data` dict a caller passes to `create_order`.
`status` is `some s` when the caller's dict contains a `"status"` key
(the free-subscription handlers pass `"status": "approved"`); since
`**order_data` is expanded after the `"status": "pending"` default in
the dict literal, a present key overrides the default. -/
structure OrderData where
  user_id : Int
  username : String
  service_id : String
  service_name : String
  plan_duration : String
  amount : ℚ
  payment_screenshot : Option String := none
  user_details : Option String := none
  status : Option String := none
deriving Repr, DecidableEq

/-- In-memory state of `Database` (`db.py`): the two tables and their
dirty flags. -/
structure Database where
  users : List (String × UserRec)
  orders : List OrderRec
  users_dirty : Bool
  orders_dirty : Bool
deriving Repr, DecidableEq

/-- `str(user_id)`: the key under which a user is stored in
`self._users`. -/
def userKey (user_id : Int) : String := toString user_id

/-- Python truthiness of the stored `referred_by` value: `None` and
`0` are falsy, every other int is truthy.  Used by the guards
`not self._users[user_key]["referred_by"]` (`set_referrer`) and
`if referrer_id:` (`process_referral_commission`). -/
def refFalsy : Option Int → Bool
  | none => true
  | some v => v == 0

/-- Lookup in the users table (`user_key in self._users` /
`self._users[user_key]`). -/
def lookupUser (users : List (String × UserRec)) (key : String) : Option UserRec :=
  (users.find? (fun p => p.1 == key)).map (fun p => p.2)

/-- In-place mutation of the record stored under `key`
(`self._users[user_key][...] = ...`). -/
def updateUserEntry (users : List (String × UserRec)) (key : String)
    (f : UserRec → UserRec) : List (String × UserRec) :=
  users.map (fun p => if p.1 == key then (p.1, f p.2) else p)

/-- The fresh record built by `get_user` for an unknown user
(`db.py` lines 146-160). -/
def newUser (user_id : Int) (now : String) : UserRec :=
  { user_id := user_id
    coins := 0
    total_referrals := 0
    total_earned := 0
    referred_by := none
    joined_at := now
    purchases := []
    language := "en"
    email := none
    subscription_plan := none
    subscription_service := none
    subscription_expiry := none
    subscription_status := "none" }

/-- `Database.get_user`: return the stored record, or create (and
store) a zero-valued one. -/
def get_user (db : Database) (user_id : Int) (now : String) : UserRec × Database :=
  match lookupUser db.users (userKey user_id) with
  | some u => (u, db)
  | none =>
      let u := newUser user_id now
      (u, { db with users := db.users ++ [(userKey user_id, u)], users_dirty := true })

/-- The partial-update dict accepted by `update_user`; only the keys
actually passed by the embedded handlers appear (`receive_user_details`
passes `{"email": user_email}`). `some v` means the key is present. -/
structure UserUpdates where
  email : Option (Option String) := none
deriving Repr, DecidableEq

/-- `dict.update` for a user record. -/
def applyUserUpdates (u : UserRec) (upd : UserUpdates) : UserRec :=
  { u with email := upd.email.getD u.email }

/-- `Database.update_user`: merge fields into an existing user;
`False` if the user is absent. -/
def update_user (db : Database) (user_id : Int) (upd : UserUpdates) : Bool × Database :=
  let key := userKey user_id
  match lookupUser db.users key with
  | some _ =>
      (true, { db with users := updateUserEntry db.users key (fun u => applyUserUpdates u upd)
                       users_dirty := true })
  | none => (false, db)

/-- `Database.set_referrer`: first-write-wins guarded by the Python
truthiness of the current `referred_by` value. -/
def set_referrer (db : Database) (user_id referrer_id : Int) : Bool × Database :=
  let key := userKey user_id
  match lookupUser db.users key with
  | some u =>
      if refFalsy u.referred_by then
        (true, { db with users := updateUserEntry db.users key
                           (fun u => { u with referred_by := some referrer_id })
                         users_dirty := true })
      else (false, db)
  | none => (false, db)

/-- `Database.add_coins`: increment `coins` and `total_earned`
together in the one locked section. -/
def add_coins (db : Database) (user_id : Int) (amount : ℚ) (reason : String := "") :
    Bool × Database :=
  let _ := reason
  let key := userKey user_id
  match lookupUser db.users key with
  | some _ =>
      (true, { db with users := updateUserEntry db.users key
                         (fun u => { u with coins := u.coins + amount
                                            total_earned := u.total_earned + amount })
                       users_dirty := true })
  | none => (false, db)

/-- `Database.increment_referral_count`. -/
def increment_referral_count (db : Database) (user_id : Int) : Bool × Database :=
  let key := userKey user_id
  match lookupUser db.users key with
  | some _ =>
      (true, { db with users := updateUserEntry db.users key
                         (fun u => { u with total_referrals := u.total_referrals + 1 })
                       users_dirty := true })
  | none => (false, db)

/-- `f"FBP{n:06d}"`: zero-pad the decimal rendering of `n` to at
least six digits and prefix `FBP`. -/
def orderIdString (n : Nat) : String :=
  let s := toString n
  "FBP" ++ String.mk (List.replicate (6 - s.length) '0') ++ s

/-- The record stored by `create_order`: defaults
`order_id` / `created_at` / `status = "pending"`, then `**order_data`
(whose keys override the defaults — in particular a `"status"` key). -/
def buildOrder (order_id now : String) (d : OrderData) : OrderRec :=
  { order_id := order_id
    created_at := now
    status := d.status.getD "pending"
    user_id := d.user_id
    username := d.username
    service_id := d.service_id
    service_name := d.service_name
    plan_duration := d.plan_duration
    amount := d.amount
    payment_screenshot := d.payment_screenshot
    user_details := d.user_details
    user_email := none
    referrer_id := none
    commission_paid := none
    activated_at := none }

/-- `Database.create_order`: id from `len(self._orders) + 1`,
append, mark dirty, return the id. -/
def create_order (db : Database) (d : OrderData) (now : String) : String × Database :=
  let order_id := orderIdString (db.orders.length + 1)
  (order_id, { db with orders := db.orders ++ [buildOrder order_id now d]
                       orders_dirty := true })

/-- `Database.get_order`: first order in the list with this id. -/
def get_order (db : Database) (order_id : String) : Option OrderRec :=
  db.orders.find? (fun o => o.order_id == order_id)

/-- The partial-update dicts passed to `update_order` by the
program's handlers.  An outer `some` means the key is present in the
dict; `user_email` can be present with value `None`
(`receive_user_details`), hence the nested option. -/
structure OrderUpdates where
  status : Option String := none
  payment_screenshot : Option String := none
  user_details : Option String := none
  user_email : Option (Option String) := none
  referrer_id : Option Int := none
  commission_paid : Option ℚ := none
  activated_at : Option String := none
deriving Repr, DecidableEq

/-- `order.update(updates)`. -/
def applyOrderUpdates (o : OrderRec) (u : OrderUpdates) : OrderRec :=
  { o with status := u.status.getD o.status
           payment_screenshot := (u.payment_screenshot.map some).getD o.payment_screenshot
           user_details := (u.user_details.map some).getD o.user_details
           user_email := u.user_email.getD o.user_email
           referrer_id := (u.referrer_id.map some).getD o.referrer_id
           commission_paid := (u.commission_paid.map some).getD o.commission_paid
           activated_at := (u.activated_at.map some).getD o.activated_at }

/-- Update the first order in the list with the given id (the loop in
`update_order` returns after the first match); `none` if no order
matches. -/
def updateFirstOrder : List OrderRec → String → OrderUpdates → Option (List OrderRec)
  | [], _, _ => none
  | o :: rest, oid, u =>
      if o.order_id == oid then some (applyOrderUpdates o u :: rest)
      else (updateFirstOrder rest oid u).map (fun l => o :: l)

/-- `Database.update_order`: merge fields into the matching order;
`False` if absent. -/
def update_order (db : Database) (order_id : String) (u : OrderUpdates) :
    Bool × Database :=
  match updateFirstOrder db.orders order_id u with
  | some os => (true, { db with orders := os, orders_dirty := true })
  | none => (false, db)

/-- `Database.add_purchase_to_user`. -/
def add_purchase_to_user (db : Database) (user_id : Int) (order_id : String)
    (amount : ℚ) (now : String) : Bool × Database :=
  let key := userKey user_id
  let entry : PurchaseEntry := { order_id := order_id, amount := amount, date := now }
  match lookupUser db.users key with
  | some _ =>
      (true, { db with users := updateUserEntry db.users key
                         (fun u => { u with purchases := u.purchases ++ [entry] })
                       users_dirty := true })
  | none => (false, db)

/-! ### Commission arithmetic (`src/utils/helpers.py`) -/

/-- Round a rational to the nearest integer, ties to even (the
behaviour of Python's builtin `round`). -/
def roundHalfEven (q : ℚ) : ℤ :=
  let f := ⌊q⌋
  let frac := q - f
  if frac < 1/2 then f
  else if 1/2 < frac then f + 1
  else if f % 2 = 0 then f else f + 1

/-- Python `round(x, 2)`. -/
def pyRound2 (x : ℚ) : ℚ := (roundHalfEven (x * 100) : ℚ) / 100

/-- `calculate_commission(amount, percent)`:
`round((amount * percent) / 100, 2)`. -/
def calculate_commission (amount percent : ℚ) : ℚ :=
  pyRound2 (amount * percent / 100)

/-- `REFERRAL_COMMISSION_PERCENT` (`config.py`): read from the
environment, default `10`. -/
def REFERRAL_COMMISSION_PERCENT_default : ℚ := 10

/-- `PAYMENT_TIMEOUT_MINUTES` (`config.py`): read from the
environment, default `10`. -/
def PAYMENT_TIMEOUT_MINUTES_default : Int := 10

/-! ### Admin and payment handlers (store effects only; message
sending is external I/O and is not part of the store state) -/

/-- What an admin callback reports back. -/
inductive AdminResult where
  | notFound
  | alreadyProcessed
  | done
deriving Repr, DecidableEq

/-- `admin_approve` (`admin.py` lines 41-59, store effect of the
guarded transition): fetch the order; absent → "Order not found";
status not exactly `"verification"` → "Order already processed", no
change; otherwise set status `"approved"`.  The handler afterwards
reaches the payout line
`asyncio.create_task(process_referral_commission(order))` (line 103),
which raises `NameError` because `admin.py` never imports `asyncio`;
`admin_approve_handler` below embeds that full run. -/
def admin_approve (db : Database) (order_id : String) : AdminResult × Database :=
  match get_order db order_id with
  | none => (.notFound, db)
  | some order =>
      if order.status != "verification" then (.alreadyProcessed, db)
      else (.done, (update_order db order_id { status := some "approved" }).2)

/-- How a full run of the `admin_approve` callback ends. -/
inductive ApproveOutcome where
  | notFound
  | alreadyProcessed
  | raisedNameError
deriving Repr, DecidableEq

/-- The full run of `admin_approve` (`admin.py` lines 27-103): the
same guards as `admin_approve`; on the success path the status is set
to `"approved"` and the handler then executes
`asyncio.create_task(process_referral_commission(order))` (line 103).
`admin.py` never imports `asyncio`, so CPython's runtime name lookup
fails and that statement raises `NameError`: the handler aborts with
the status already flipped, and `process_referral_commission` — whose
only call site in the program this is — is never invoked. -/
def admin_approve_handler (db : Database) (order_id : String) :
    ApproveOutcome × Database :=
  match get_order db order_id with
  | none => (.notFound, db)
  | some order =>
      if order.status != "verification" then (.alreadyProcessed, db)
      else (.raisedNameError, (update_order db order_id { status := some "approved" }).2)

/-- `admin_reject` (`admin.py` lines 206-230, store effect): fetch
the order; absent → "Order not found"; otherwise set status
`"rejected"` unconditionally — the source has no status guard here. -/
def admin_reject (db : Database) (order_id : String) : AdminResult × Database :=
  match get_order db order_id with
  | none => (.notFound, db)
  | some _ => (.done, (update_order db order_id { status := some "rejected" }).2)

/-- `cancel_order` (`payment.py` lines 395-413, store effect): set
status `"cancelled"` unconditionally (no fetch, no status guard;
`update_order` itself no-ops only when the order id is absent). -/
def cancel_order (db : Database) (order_id : String) : Database :=
  (update_order db order_id { status := some "cancelled" }).2

/-- `handle_screenshot` (`payment.py` lines 339-356, store effect):
set status `"verification"` and record the screenshot file id (the
pending-status guard lives in the earlier `request_screenshot`
callback, not here). -/
def handle_screenshot (db : Database) (order_id file_id : String) : Database :=
  (update_order db order_id { status := some "verification"
                              payment_screenshot := some file_id }).2

/-- `process_referral_commission` (`admin.py` lines 248-289, store
effect): look up the purchaser, and if their `referred_by` is truthy
credit the referrer (`add_coins` adds to `coins` and `total_earned`
together), increment the referrer's counter, and record
`referrer_id` / `commission_paid` on the order.  There is no check of
the order's `commission_paid` field anywhere in the function.  (This
embeds the function itself; its only call site, `admin.py` line 103,
raises `NameError` before the call is made — see
`admin_approve_handler`.) -/
def process_referral_commission (percent : ℚ) (db : Database) (order : OrderRec)
    (now : String) : Database :=
  let (user, db1) := get_user db order.user_id now
  if refFalsy user.referred_by then db1
  else
    match user.referred_by with
    | none => db1
    | some referrer_id =>
        let commission := calculate_commission order.amount percent
        let db2 := (add_coins db1 referrer_id commission).2
        let db3 := (increment_referral_count db2 referrer_id).2
        (update_order db3 order.order_id { referrer_id := some referrer_id
                                           commission_paid := some commission }).2

/-- `receive_user_details` (`admin.py` lines 105-151, store effect):
optionally store the extracted email on the user, then set
`user_details` / `user_email` / `status = "fulfillment"` /
`activated_at` on the order, then append the purchase to the user's
history.  (When the order id is absent the handler raises before the
order update; the store keeps only the email write.) -/
def receive_user_details (db : Database) (order_id : String) (from_user : Int)
    (details : String) (user_email : Option String) (now : String) : Database :=
  let db1 := match user_email with
    | some e => (update_user db from_user { email := some (some e) }).2
    | none => db
  match get_order db1 order_id with
  | none => db1
  | some order =>
      let db2 := (update_order db1 order_id
        { user_details := some details
          user_email := some user_email
          status := some "fulfillment"
          activated_at := some now }).2
      (add_purchase_to_user db2 from_user order_id order.amount now).2

/-! ### Expiry timer (`payment.py`, `start_payment_timer`) -/

/-- The warning table of `start_payment_timer`: seconds-before-expiry
offsets, in source order. -/
def warning_offsets : List Int := [300, 180, 60]

/-- The sleeps performed by the warning loop: each iteration computes
`wait_time = timeout_seconds - warning_time` and sleeps that long
when it is positive.  The sleeps run one after another, so they
accumulate. -/
def warning_waits (timeout_seconds : Int) : List Int :=
  (warning_offsets.map (fun w => timeout_seconds - w)).filter (fun t => t > 0)

/-- Absolute wake-up times (seconds after the timer starts) at which
the warning checkpoints fire: partial sums of the successive sleeps. -/
def timer_warning_times (timeout_seconds : Int) : List Int :=
  (warning_waits timeout_seconds).scanl (· + ·) 0 |>.drop 1

/-- Absolute time of the final expiry check: after the warning loop
the task sleeps another 60 seconds and then checks. -/
def timer_expiry_time (timeout_seconds : Int) : Int :=
  (warning_waits timeout_seconds).foldl (· + ·) 0 + 60

/-- A warning checkpoint's store-visible behaviour: it sends a
message only when the order exists and is still `"pending"`, and
never mutates the store. -/
def timer_warning_fires (db : Database) (order_id : String) : Bool :=
  match get_order db order_id with
  | some o => o.status == "pending"
  | none => false

/-- The final expiry checkpoint: re-fetch the order and set status
`"expired"` only if it is still `"pending"`; otherwise do nothing. -/
def timer_expiry_check (db : Database) (order_id : String) : Database :=
  match get_order db order_id with
  | some o =>
      if o.status == "pending" then
        (update_order db order_id { status := some "expired" }).2
      else db
  | none => db

/-! ### Flush / durability (`db.py`, `_save_dirty_data` and
`_write_file`) -/

/-- On-disk contents of the two JSON files. -/
structure DiskState where
  users_file : List (String × UserRec)
  orders_file : List OrderRec
deriving Repr, DecidableEq

/-- Memory plus disk. -/
structure FullState where
  mem : Database
  disk : DiskState
deriving Repr, DecidableEq

/-- `_write_file` for the users file: on an I/O failure the exception
is caught inside `_write_file` (logged and swallowed), so the caller
never sees it and the file keeps its previous contents. -/
def write_users_file (write_ok : Bool) (disk : DiskState)
    (data : List (String × UserRec)) : DiskState :=
  if write_ok then { disk with users_file := data } else disk

/-- `_write_file` for the orders file; same failure behaviour. -/
def write_orders_file (write_ok : Bool) (disk : DiskState)
    (data : List OrderRec) : DiskState :=
  if write_ok then { disk with orders_file := data } else disk

/-- `_save_dirty_data`: for each dirty table, call `_write_file` and
then clear the dirty flag.  Because `_write_file` swallows its own
errors, the flag is cleared whether or not the write succeeded. -/
def save_dirty_data (users_write_ok orders_write_ok : Bool) (s : FullState) : FullState :=
  let s1 :=
    if s.mem.users_dirty then
      { mem := { s.mem with users_dirty := false }
        disk := write_users_file users_write_ok s.disk s.mem.users }
    else s
  if s1.mem.orders_dirty then
    { mem := { s1.mem with orders_dirty := false }
      disk := write_orders_file orders_write_ok s1.disk s1.mem.orders }
  else s1

/-! ### Free-subscription order creation
(`payment.py` `receive_free_email`, and the identical dict in
`free_subscription.py`) -/

/-- The `order_data` dict built by `receive_free_email`: amount `0`
and, crucially, an explicit `"status": "approved"` key
("Auto-approve free orders"). -/
def free_order_data (user_id : Int) (username service_id plan_duration email : String) :
    OrderData :=
  { user_id := user_id
    username := username
    service_id := service_id
    service_name := "YouTube Premium"
    plan_duration := plan_duration
    amount := 0
    status := some "approved"
    user_details := some email }

/-! ### Settings / catalog store (`src/services/settings.py`) -/

/-- One plan of a service (`services.json` schema as read by
`bulk_update_prices` and `_create_payment_order`). -/
structure Plan where
  duration : String
  price : ℚ
  original_price : Option ℚ := none
  custom_qr_file_id : Option String := none
deriving Repr, DecidableEq

/-- One catalog service.  `plans = none` embeds a service dict
without a `'plans'` key (`if 'plans' in service`). -/
structure Service where
  name : String
  plans : Option (List Plan) := none
deriving Repr, DecidableEq

/-- `int()` on a rational: Python `int(float)` truncates toward
zero. -/
def pyInt (q : ℚ) : ℤ := if 0 ≤ q then ⌊q⌋ else ⌈q⌉

/-- Body of the inner plan loop of `bulk_update_prices`:
`new_price = int(old_price * factor)`, clamped up to `1` when the
result is below `1`. -/
def bulk_new_price (old_price factor : ℚ) : ℚ :=
  let np := pyInt (old_price * factor)
  if np < 1 then 1 else (np : ℚ)

/-- The service loop of `bulk_update_prices`: services without a
`'plans'` key are skipped and not counted; for the others every
plan's price is recomputed and the counter is incremented once per
service. -/
def bulk_update_services (factor : ℚ) :
    List (String × Service) → Nat × List (String × Service)
  | [] => (0, [])
  | (sid, s) :: rest =>
      let (c, rest') := bulk_update_services factor rest
      match s.plans with
      | none => (c, (sid, s) :: rest')
      | some ps =>
          let ps' := ps.map (fun p => { p with price := bulk_new_price p.price factor })
          (c + 1, (sid, { s with plans := some ps' }) :: rest')

/-- `SettingsManager.bulk_update_prices(percentage, increase)`:
`factor = 1 ± percentage/100`, returns the number of services
touched together with the updated catalog. -/
def bulk_update_prices (services : List (String × Service)) (percentage : ℚ)
    (increase : Bool) : Nat × List (String × Service) :=
  let factor := if increase then 1 + percentage / 100 else 1 - percentage / 100
  bulk_update_services factor services

/-- The `payment_system` section of `settings.json`; a field is
`none` when the key is absent (every read below goes through
`.get(key, default)`). -/
structure PaymentSystemSection where
  enabled : Option Bool := none
  disabled_message : Option String := none
deriving Repr, DecidableEq

/-- The loaded settings dict; `payment_system = none` embeds a
settings mapping without a `'payment_system'` section (in particular
the empty mapping `_load_json` degrades to on a read error). -/
structure Settings where
  payment_system : Option PaymentSystemSection := none
deriving Repr, DecidableEq

/-- `_load_json`: a successful read yields the parsed settings; any
exception is caught and the empty mapping `{}` is returned. -/
def load_json (read_result : Option Settings) : Settings :=
  match read_result with
  | some s => s
  | none => {}

/-- `is_payment_enabled`:
`self._settings.get('payment_system', {}).get('enabled', True)`. -/
def is_payment_enabled (s : Settings) : Bool :=
  match s.payment_system with
  | none => true
  | some ps => ps.enabled.getD true

/-- `get_disabled_message`:
`self._settings.get('payment_system', {}).get('disabled_message',
"System Maintenance")`. -/
def get_disabled_message (s : Settings) : String :=
  match s.payment_system with
  | none => "System Maintenance"
  | some ps => ps.disabled_message.getD "System Maintenance"

/-! ### Basic lemmas about the two tables -/

theorem lookupUser_nil (k : String) : lookupUser [] k = none := rfl

theorem lookupUser_cons (p : String × UserRec) (rest : List (String × UserRec))
    (k : String) :
    lookupUser (p :: rest) k = if p.1 == k then some p.2 else lookupUser rest k := by
  cases h : (p.1 == k) <;> simp [lookupUser, List.find?, h]

theorem updateUserEntry_cons (p : String × UserRec) (rest : List (String × UserRec))
    (k : String) (f : UserRec → UserRec) :
    updateUserEntry (p :: rest) k f =
      (if p.1 == k then (p.1, f p.2) else p) :: updateUserEntry rest k f := rfl

theorem lookupUser_updateUserEntry_self (us : List (String × UserRec)) (k : String)
    (f : UserRec → UserRec) (v : UserRec) (h : lookupUser us k = some v) :
    lookupUser (updateUserEntry us k f) k = some (f v) := by
  induction us with
  | nil => simp [lookupUser_nil] at h
  | cons p rest ih =>
      by_cases hp : p.1 = k
      · simp [lookupUser_cons, updateUserEntry_cons, hp] at h ⊢
        rw [h]
      · simp [lookupUser_cons, updateUserEntry_cons, hp] at h ⊢
        exact ih h

theorem lookupUser_updateUserEntry_ne (us : List (String × UserRec)) (k k' : String)
    (f : UserRec → UserRec) (h : k' ≠ k) :
    lookupUser (updateUserEntry us k f) k' = lookupUser us k' := by
  induction us with
  | nil => rfl
  | cons p rest ih =>
      by_cases hp : p.1 = k
      · have hp' : p.1 ≠ k' := by rw [hp]; exact (Ne.symm h)
        simp [lookupUser_cons, updateUserEntry_cons, hp, hp', Ne.symm h]
        exact ih
      · by_cases hq : p.1 = k'
        · subst hq
          simp [lookupUser_cons, updateUserEntry_cons, hp]
        · simp [lookupUser_cons, updateUserEntry_cons, hp, hq]
          exact ih

theorem applyOrderUpdates_order_id (o : OrderRec) (u : OrderUpdates) :
    (applyOrderUpdates o u).order_id = o.order_id := rfl

theorem find?_order_cons (a : OrderRec) (rest : List OrderRec) (oid : String) :
    (a :: rest).find? (fun x => x.order_id == oid) =
      if a.order_id == oid then some a
      else rest.find? (fun x => x.order_id == oid) := by
  cases h : (a.order_id == oid) <;> simp [List.find?, h]

theorem updateFirstOrder_cons (a : OrderRec) (rest : List OrderRec) (oid : String)
    (u : OrderUpdates) :
    updateFirstOrder (a :: rest) oid u =
      if a.order_id == oid then some (applyOrderUpdates a u :: rest)
      else (updateFirstOrder rest oid u).map (fun l => a :: l) := rfl

theorem updateFirstOrder_spec (os : List OrderRec) (oid : String) (u : OrderUpdates)
    (o : OrderRec) (h : os.find? (fun x => x.order_id == oid) = some o) :
    ∃ os', updateFirstOrder os oid u = some os' ∧
      os'.find? (fun x => x.order_id == oid) = some (applyOrderUpdates o u) := by
  induction os with
  | nil => simp [List.find?] at h
  | cons a rest ih =>
      by_cases ha : a.order_id = oid
      · simp only [find?_order_cons, ha, beq_self_eq_true, if_true] at h
        rw [Option.some_inj] at h
        subst h
        refine ⟨applyOrderUpdates a u :: rest, ?_, ?_⟩
        · simp [updateFirstOrder_cons, ha]
        · simp [find?_order_cons, applyOrderUpdates_order_id, ha]
      · simp [find?_order_cons, ha] at h
        obtain ⟨os', h1, h2⟩ := ih h
        refine ⟨a :: os', ?_, ?_⟩
        · simp [updateFirstOrder_cons, ha, h1]
        · simp [find?_order_cons, ha, h2]

theorem update_order_found {db : Database} {oid : String} {u : OrderUpdates}
    {o : OrderRec} (h : get_order db oid = some o) :
    (update_order db oid u).1 = true ∧
      get_order (update_order db oid u).2 oid = some (applyOrderUpdates o u) := by
  obtain ⟨os', h1, h2⟩ := updateFirstOrder_spec db.orders oid u o h
  simp [update_order, h1, get_order, h2]

theorem update_order_users (db : Database) (oid : String) (u : OrderUpdates) :
    (update_order db oid u).2.users = db.users := by
  cases h : updateFirstOrder db.orders oid u <;> simp [update_order, h]

/-! ### Effect of one commission payout on the users table -/

/-- Spec-side description of one commission credit: both money
fields up by the commission, the referral counter up by one. -/
def creditReferrer (ur : UserRec) (c : ℚ) : UserRec :=
  { ur with coins := ur.coins + c
            total_earned := ur.total_earned + c
            total_referrals := ur.total_referrals + 1 }

theorem process_referral_commission_users (percent : ℚ) (db : Database)
    (order : OrderRec) (now : String) (u ur : UserRec) (r : Int)
    (hu : lookupUser db.users (userKey order.user_id) = some u)
    (hr : u.referred_by = some r) (hr0 : r ≠ 0)
    (hur : lookupUser db.users (userKey r) = some ur) :
    lookupUser (process_referral_commission percent db order now).users (userKey r) =
      some (creditReferrer ur (calculate_commission order.amount percent)) := by
  unfold process_referral_commission
  simp only [get_user, hu]
  simp only [hr]
  have hfalsy : refFalsy (some r) = false := by
    simp [refFalsy, hr0]
  simp only [hfalsy, Bool.false_eq_true, if_false]
  simp only [add_coins, hur]
  have h2 : lookupUser (updateUserEntry db.users (userKey r)
      (fun u => { u with coins := u.coins + calculate_commission order.amount percent
                         total_earned := u.total_earned + calculate_commission order.amount percent }))
      (userKey r) =
      some { ur with coins := ur.coins + calculate_commission order.amount percent
                     total_earned := ur.total_earned + calculate_commission order.amount percent } :=
    lookupUser_updateUserEntry_self _ _ _ _ hur
  simp only [increment_referral_count, h2]
  rw [update_order_users]
  have h3 := lookupUser_updateUserEntry_self
    (updateUserEntry db.users (userKey r)
      (fun u => { u with coins := u.coins + calculate_commission order.amount percent
                         total_earned := u.total_earned + calculate_commission order.amount percent }))
    (userKey r)
    (fun u => { u with total_referrals := u.total_referrals + 1 }) _ h2
  exact h3

theorem process_referral_commission_purchaser (percent : ℚ) (db : Database)
    (order : OrderRec) (now : String) (u ur : UserRec) (r : Int)
    (hu : lookupUser db.users (userKey order.user_id) = some u)
    (hr : u.referred_by = some r) (hr0 : r ≠ 0)
    (hur : lookupUser db.users (userKey r) = some ur) :
    ∃ u', lookupUser (process_referral_commission percent db order now).users
        (userKey order.user_id) = some u' ∧ u'.referred_by = u.referred_by := by
  by_cases hk : userKey order.user_id = userKey r
  · have huu : u = ur := by
      rw [hk] at hu
      rw [hu] at hur
      exact (Option.some_inj.mp hur)
    refine ⟨creditReferrer ur (calculate_commission order.amount percent), ?_, ?_⟩
    · rw [hk]
      exact process_referral_commission_users percent db order now u ur r hu hr hr0 hur
    · rw [huu]; rfl
  · unfold process_referral_commission
    simp only [get_user, hu]
    simp only [hr]
    have hfalsy : refFalsy (some r) = false := by
      simp [refFalsy, hr0]
    simp only [hfalsy, Bool.false_eq_true, if_false]
    simp only [add_coins, hur]
    have h2 : lookupUser (updateUserEntry db.users (userKey r)
        (fun u => { u with coins := u.coins + calculate_commission order.amount percent
                           total_earned := u.total_earned + calculate_commission order.amount percent }))
        (userKey r) =
        some { ur with coins := ur.coins + calculate_commission order.amount percent
                       total_earned := ur.total_earned + calculate_commission order.amount percent } :=
      lookupUser_updateUserEntry_self _ _ _ _ hur
    simp only [increment_referral_count, h2]
    rw [update_order_users]
    rw [lookupUser_updateUserEntry_ne _ _ _ _ hk, lookupUser_updateUserEntry_ne _ _ _ _ hk]
    exact ⟨u, hu, hr⟩

/-! ### Bulk price update lemmas -/

theorem bulk_new_price_eq_floor (old factor : ℚ) (h0 : 0 ≤ old) (hf : 0 ≤ factor) :
    bulk_new_price old factor = max 1 ((⌊old * factor⌋ : ℤ) : ℚ) := by
  have hm : 0 ≤ old * factor := mul_nonneg h0 hf
  unfold bulk_new_price pyInt
  rw [if_pos hm]
  by_cases hlt : ⌊old * factor⌋ < 1
  · rw [if_pos hlt]
    symm
    exact max_eq_left (by exact_mod_cast hlt.le)
  · rw [if_neg hlt]
    push_neg at hlt
    symm
    exact max_eq_right (by exact_mod_cast hlt)

theorem bulk_new_price_factor_zero (old : ℚ) : bulk_new_price old 0 = 1 := by
  unfold bulk_new_price pyInt
  norm_num

/-- The per-plan effect of the bulk update, as the code computes it. -/
def bulkPlanPrice (factor : ℚ) (p : Plan) : Plan :=
  { p with price := bulk_new_price p.price factor }

/-- The per-service effect of the bulk update. -/
def bulkService (factor : ℚ) (s : Service) : Service :=
  { s with plans := s.plans.map (fun ps => ps.map (bulkPlanPrice factor)) }

/-- The per-plan effect as the spec words it:
`round_down(old_price * factor)` clamped up to a minimum of `1`. -/
def specPlanPrice (factor : ℚ) (p : Plan) : Plan :=
  { p with price := max 1 ((⌊p.price * factor⌋ : ℤ) : ℚ) }

theorem bulk_update_services_spec (factor : ℚ) (svcs : List (String × Service)) :
    bulk_update_services factor svcs =
      ((svcs.filter (fun s => s.2.plans.isSome)).length,
       svcs.map (fun s => (s.1, bulkService factor s.2))) := by
  induction svcs with
  | nil => rfl
  | cons a rest ih =>
      obtain ⟨sid, nm, pl⟩ := a
      cases pl with
      | none => simp [bulk_update_services, ih, List.filter, bulkService]
      | some ps => simp [bulk_update_services, ih, List.filter, bulkService, bulkPlanPrice]

/-! ### Claim theorems -/

/-- C6: the spec (and the function's own docstring) places the
warnings at 5/3/1 minutes before the deadline and the final expiry
check at the deadline, i.e. at 300/420/540/600 seconds for the
default 10-minute timeout.  Because the loop's sleeps accumulate, the
code actually wakes at 300, 720 and 1260 seconds and performs the
final expiry check at 1320 seconds — not at 600. -/
theorem timer_schedule_diverges_from_spec :
    PAYMENT_TIMEOUT_MINUTES_default * 60 = 600 ∧
    timer_warning_times 600 = [300, 720, 1260] ∧
    timer_expiry_time 600 = 1320 ∧
    timer_warning_times 600 ≠ [300, 420, 540] ∧
    timer_expiry_time 600 ≠ 600 := by decide

/-- C10: when the loaded settings contain no `payment_system` section
(in particular the empty mapping a failed `_load_json` degrades to),
`is_payment_enabled` returns `True` and `get_disabled_message`
returns `"System Maintenance"` — the payment system fails open. -/
theorem payment_enabled_fails_open (s : Settings) (h : s.payment_system = none) :
    is_payment_enabled s = true ∧
    get_disabled_message s = "System Maintenance" ∧
    (load_json none).payment_system = none := by
  refine ⟨?_, ?_, rfl⟩ <;> simp [is_payment_enabled, get_disabled_message, h]

/-- Witness for `payment_enabled_fails_open` at the settings object a
failed read degrades to. -/
theorem payment_enabled_fails_open_witness :
    (load_json none).payment_system = none ∧
    (is_payment_enabled (load_json none) = true ∧
     get_disabled_message (load_json none) = "System Maintenance" ∧
     (load_json none).payment_system = none) :=
  ⟨rfl, payment_enabled_fails_open (load_json none) rfl⟩

/-- A state with an unflushed user mutation (users table dirty,
disk stale). -/
def memC2 : Database :=
  { users := [("1", newUser 1 "t0")], orders := []
    users_dirty := true, orders_dirty := false }

def stC2 : FullState :=
  { mem := memC2, disk := { users_file := [], orders_file := [] } }

/-- C2 counterexample: flushing `stC2` while the users-file write
fails clears the users dirty flag anyway (the claim says it must stay
set), and leaves the disk stale. -/
theorem flush_failed_write_counterexample :
    stC2.mem.users_dirty = true ∧
    (save_dirty_data false true stC2).mem.users_dirty = false ∧
    (save_dirty_data false true stC2).disk.users_file = [] ∧
    (save_dirty_data false true stC2).mem.users ≠ [] := by decide

/-- C2 amended: after `_save_dirty_data` returns following a failed
users-file write, the users dirty flag is cleared anyway — the I/O
error is caught inside `_write_file`, so the flush silently drops the
failed write (the file keeps its old contents) and nothing is retried
at the next tick. -/
theorem flush_clears_dirty_flag_unconditionally (s : FullState) (ok2 : Bool) :
    (save_dirty_data false ok2 s).mem.users_dirty = false ∧
    (save_dirty_data false ok2 s).disk.users_file = s.disk.users_file ∧
    (save_dirty_data false ok2 s).mem.users = s.mem.users := by
  unfold save_dirty_data write_users_file write_orders_file
  cases hu : s.mem.users_dirty <;> cases ho : s.mem.orders_dirty <;>
    cases ok2 <;> simp [hu, ho]

/-- An order already decided (status `"approved"`). -/
def orderC3 : OrderRec :=
  { buildOrder "FBP000001" "t0"
      { user_id := 7, username := "u", service_id := "nf"
        service_name := "Netflix", plan_duration := "1 Month", amount := 199 }
    with status := "approved" }

def dbC3 : Database :=
  { users := [], orders := [orderC3], users_dirty := false, orders_dirty := false }

/-- C3 counterexample: `admin_reject` on an order whose status is
`"approved"` (not `"verification"`) performs the transition anyway
and reports success, instead of leaving the order unchanged and
reporting "already processed". -/
theorem admin_reject_no_guard_counterexample :
    orderC3.status = "approved" ∧
    (admin_reject dbC3 "FBP000001").1 = AdminResult.done ∧
    (get_order (admin_reject dbC3 "FBP000001").2 "FBP000001").map (fun o => o.status) =
      some "rejected" := by decide

/-- C3 amended: `admin_reject` checks only that the order exists; it
sets the status of any existing order to `"rejected"` regardless of
the order's current status, and never reports "already processed"
(only "Order not found" for an absent id). -/
theorem admin_reject_rejects_any_existing_order (db : Database) (oid : String)
    (o : OrderRec) (h : get_order db oid = some o) :
    (admin_reject db oid).1 = AdminResult.done ∧
    (get_order (admin_reject db oid).2 oid).map (fun x => x.status) = some "rejected" := by
  obtain ⟨h1, h2⟩ := update_order_found (u := { status := some "rejected" }) h
  constructor
  · simp [admin_reject, h]
  · simp only [admin_reject, h]
    rw [h2]
    rfl

/-- Witness for `admin_reject_rejects_any_existing_order` on the
concrete approved order `orderC3`. -/
theorem admin_reject_rejects_any_existing_order_witness :
    get_order dbC3 "FBP000001" = some orderC3 ∧
    ((admin_reject dbC3 "FBP000001").1 = AdminResult.done ∧
     (get_order (admin_reject dbC3 "FBP000001").2 "FBP000001").map (fun x => x.status) =
       some "rejected") :=
  ⟨by decide, admin_reject_rejects_any_existing_order dbC3 "FBP000001" orderC3 (by decide)⟩

/-- An approved (per the claim: terminal) order. -/
def orderC4 : OrderRec :=
  { buildOrder "FBP000001" "t0"
      { user_id := 9, username := "v", service_id := "yt"
        service_name := "YouTube Premium", plan_duration := "1 Month", amount := 25 }
    with status := "approved" }

def dbC4 : Database :=
  { users := [], orders := [orderC4], users_dirty := false, orders_dirty := false }

/-- C4 counterexample: `"approved"` is terminal per the claim, yet
`cancel_order` (which updates unconditionally) moves the order to
`"cancelled"`, changing a terminal order's status. -/
theorem terminal_not_absorbing_counterexample :
    orderC4.status = "approved" ∧
    (get_order (cancel_order dbC4 "FBP000001") "FBP000001").map (fun o => o.status) =
      some "cancelled" ∧
    ("cancelled" : String) ≠ "approved" := by decide

/-- C4 amended: the terminal statuses are absorbing only under the
guarded operations — `admin_approve` (guard: status exactly
`"verification"`) and the expiry-timer checkpoints (guard: status
`"pending"`) leave an order in any terminal status untouched — but
not under `cancel_order`, `admin_reject` or the fulfillment update,
which set the status unconditionally on any existing order. -/
theorem terminal_absorbing_under_guarded_ops (db : Database) (oid : String)
    (o : OrderRec) (h : get_order db oid = some o)
    (hterm : o.status = "approved" ∨ o.status = "rejected" ∨
      o.status = "expired" ∨ o.status = "cancelled") :
    admin_approve db oid = (AdminResult.alreadyProcessed, db) ∧
    timer_expiry_check db oid = db ∧
    timer_warning_fires db oid = false := by
  have hv : (o.status != "verification") = true := by
    rcases hterm with h' | h' | h' | h' <;> simp [h']
  have hp : (o.status == "pending") = false := by
    rcases hterm with h' | h' | h' | h' <;> simp [h']
  refine ⟨?_, ?_, ?_⟩ <;>
    simp [admin_approve, timer_expiry_check, timer_warning_fires, h, hv, hp]

/-- Witness for `terminal_absorbing_under_guarded_ops` on the
concrete approved order `orderC4`. -/
theorem terminal_absorbing_under_guarded_ops_witness :
    get_order dbC4 "FBP000001" = some orderC4 ∧
    orderC4.status = "approved" ∧
    (admin_approve dbC4 "FBP000001" = (AdminResult.alreadyProcessed, dbC4) ∧
     timer_expiry_check dbC4 "FBP000001" = dbC4 ∧
     timer_warning_fires dbC4 "FBP000001" = false) :=
  ⟨by decide, by decide,
   terminal_absorbing_under_guarded_ops dbC4 "FBP000001" orderC4 (by decide)
     (Or.inl (by decide))⟩

def emptyDb : Database :=
  { users := [], orders := [], users_dirty := false, orders_dirty := false }

/-- C5 counterexample: the free-subscription caller passes
`"status": "approved"` in its `order_data`, and `**order_data`
overrides `create_order`'s `"pending"` default — the stored order is
`"approved"` immediately after `create_order` returns. -/
theorem free_order_created_approved_counterexample :
    ((create_order emptyDb
        (free_order_data 5 "u" "youtube_premium" "1 Month" "user@gmail.com")
        "t1").2.orders.map (fun o => o.status)) = ["approved"] ∧
    ("approved" : String) ≠ "pending" := by decide

/-- C5 amended: the order stored by `create_order` has status
`"pending"` exactly when the caller's `order_data` carries no
`"status"` key; the free-subscription callers pass
`"status": "approved"`, so their orders enter the system already
approved. -/
theorem create_order_status_from_caller (db : Database) (d : OrderData) (now : String)
    (uid : Int) (un sid pd em : String) (h : d.status = none) :
    ((create_order db d now).2.orders.getLast?).map (fun o => o.status) = some "pending" ∧
    ((create_order db (free_order_data uid un sid pd em) now).2.orders.getLast?).map
      (fun o => o.status) = some "approved" := by
  constructor <;>
    simp [create_order, buildOrder, free_order_data, List.getLast?_concat, h]

/-- Witness for `create_order_status_from_caller`: a status-less
purchase `order_data` and a free-subscription `order_data`. -/
theorem create_order_status_from_caller_witness :
    ({ user_id := 3, username := "w", service_id := "nf"
       service_name := "Netflix", plan_duration := "1 Month"
       amount := 199 } : OrderData).status = none ∧
    (((create_order emptyDb
        { user_id := 3, username := "w", service_id := "nf"
          service_name := "Netflix", plan_duration := "1 Month", amount := 199 }
        "t0").2.orders.getLast?).map (fun o => o.status) = some "pending" ∧
     ((create_order emptyDb (free_order_data 5 "u" "yt" "1 Month" "a@b.c")
        "t0").2.orders.getLast?).map (fun o => o.status) = some "approved") :=
  ⟨rfl,
   create_order_status_from_caller emptyDb
     { user_id := 3, username := "w", service_id := "nf"
       service_name := "Netflix", plan_duration := "1 Month", amount := 199 }
     "t0" 5 "u" "yt" "1 Month" "a@b.c" rfl⟩

/-- A user with no referrer set. -/
def userC9 : UserRec := newUser 7 "t0"

def dbC9 : Database :=
  { users := [("7", userC9)], orders := [], users_dirty := false, orders_dirty := false }

/-- C9 counterexample: with R1 = 0 the claim fails — the guard tests
Python truthiness of the stored value, and a stored referrer of `0`
still counts as unset, so the second call succeeds and overwrites it
with R2 = 1 instead of returning false and keeping R1. -/
theorem set_referrer_zero_overwrite_counterexample :
    userC9.referred_by = none ∧
    (set_referrer dbC9 7 0).1 = true ∧
    (set_referrer (set_referrer dbC9 7 0).2 7 1).1 = true ∧
    (lookupUser (set_referrer (set_referrer dbC9 7 0).2 7 1).2.users "7").map
      (fun x => x.referred_by) = some (some 1) := by decide

/-- C9 amended: first-write-wins holds whenever R1 ≠ 0: after
`set_referrer(U, R1)` succeeds on a user whose referrer is unset, a
second call with any R2 returns false and the stored referrer stays
R1.  (For R1 = 0 the truthiness guard treats the stored referrer as
still unset and lets R2 overwrite it.) -/
theorem set_referrer_first_write_wins_nonzero (db : Database) (U R1 R2 : Int)
    (u : UserRec) (hu : lookupUser db.users (userKey U) = some u)
    (h0 : u.referred_by = none) (hR1 : R1 ≠ 0) (_hne : R1 ≠ R2) :
    (set_referrer db U R1).1 = true ∧
    (set_referrer (set_referrer db U R1).2 U R2).1 = false ∧
    (lookupUser (set_referrer (set_referrer db U R1).2 U R2).2.users (userKey U)).map
      (fun x => x.referred_by) = some (some R1) := by
  have h1 : lookupUser
      (updateUserEntry db.users (userKey U) (fun x => { x with referred_by := some R1 }))
      (userKey U) = some { u with referred_by := some R1 } :=
    lookupUser_updateUserEntry_self _ _ _ _ hu
  refine ⟨?_, ?_, ?_⟩ <;>
    simp [set_referrer, hu, refFalsy, h0, h1, hR1]

/-- Witness for `set_referrer_first_write_wins_nonzero` with
R1 = 5, R2 = 9 on user 7. -/
theorem set_referrer_first_write_wins_nonzero_witness :
    lookupUser dbC9.users (userKey (7 : Int)) = some userC9 ∧
    userC9.referred_by = none ∧ (5 : Int) ≠ 0 ∧ (5 : Int) ≠ 9 ∧
    ((set_referrer dbC9 7 5).1 = true ∧
     (set_referrer (set_referrer dbC9 7 5).2 7 9).1 = false ∧
     (lookupUser (set_referrer (set_referrer dbC9 7 5).2 7 9).2.users (userKey (7 : Int))).map
       (fun x => x.referred_by) = some (some 5)) :=
  ⟨by decide, rfl, by decide, by decide,
   set_referrer_first_write_wins_nonzero dbC9 7 5 9 userC9 (by decide) rfl
     (by decide) (by decide)⟩

/-- Purchaser 555, referred by the stored user 999. -/
def buyerC7 : UserRec := { newUser 555 "t0" with referred_by := some 999 }

def referrerC7 : UserRec := newUser 999 "t0"

/-- The order of amount 149 from the spec's Scenario A, awaiting the
admin decision (status `"verification"`). -/
def orderC7 : OrderRec :=
  { buildOrder "FBP000001" "t0"
      { user_id := 555, username := "buyer", service_id := "yt"
        service_name := "YouTube Premium", plan_duration := "1 Month", amount := 149 }
    with status := "verification" }

def dbC7 : Database :=
  { users := [("555", buyerC7), ("999", referrerC7)], orders := [orderC7]
    users_dirty := false, orders_dirty := false }

/-- C7: approving the Scenario A order flips it to `"approved"` but
the run then raises `NameError` at the payout line (`admin.py` never
imports `asyncio`), so the referrer's coins, lifetime earnings and
referral count all stay 0 — no approval ever credits a referrer —
whereas the claim requires a credit of
`round(149 * 10 / 100, 2) = 14.90` and one referral, exactly what the
never-reached subroutine would pay. -/
theorem approval_commission_never_credited :
    orderC7.status = "verification" ∧
    (admin_approve_handler dbC7 "FBP000001").1 = ApproveOutcome.raisedNameError ∧
    (get_order (admin_approve_handler dbC7 "FBP000001").2 "FBP000001").map
      (fun o => o.status) = some "approved" ∧
    (lookupUser (admin_approve_handler dbC7 "FBP000001").2.users (userKey (999 : Int))).map
      (fun x => (x.coins, x.total_earned, x.total_referrals)) = some (0, 0, 0) ∧
    calculate_commission 149 10 = 149 / 10 :=
  ⟨by decide, by decide, by decide, by decide,
   by norm_num [calculate_commission, pyRound2, roundHalfEven]⟩

/-- Purchaser and referrer for the double-payment scenario. -/
def buyerC1 : UserRec := { newUser 555 "t0" with referred_by := some 999 }

def referrerC1 : UserRec := newUser 999 "t0"

def orderC1 : OrderRec :=
  { buildOrder "FBP000001" "t0"
      { user_id := 555, username := "buyer", service_id := "yt"
        service_name := "YouTube Premium", plan_duration := "1 Month", amount := 149 }
    with status := "approved" }

def dbC1 : Database :=
  { users := [("555", buyerC1), ("999", referrerC1)], orders := [orderC1]
    users_dirty := false, orders_dirty := false }

def dbC1once : Database := process_referral_commission 10 dbC1 orderC1 "t1"

def dbC1twice : Database := process_referral_commission 10 dbC1once orderC1 "t2"

/-- C1 counterexample: invoking `process_referral_commission` a
second time for the same approved order is not a no-op — the
referrer's referral count moves from 1 to 2 (and the balances are
credited again): the function never reads `commission_paid`. -/
theorem commission_double_pay_counterexample :
    (lookupUser dbC1once.users (userKey (999 : Int))).map (fun x => x.total_referrals) =
      some 1 ∧
    (lookupUser dbC1twice.users (userKey (999 : Int))).map (fun x => x.total_referrals) =
      some 2 := by decide

/-- C1 amended: a second invocation of `process_referral_commission`
for the same order credits the referrer again — coins and lifetime
earnings each grow by the commission once more and the referral count
by one more — because the function contains no check of the order's
`commission_paid` field. -/
theorem commission_second_invocation_credits_again (percent : ℚ) (db : Database)
    (order : OrderRec) (now now2 : String) (u ur : UserRec) (r : Int)
    (hu : lookupUser db.users (userKey order.user_id) = some u)
    (hr : u.referred_by = some r) (hr0 : r ≠ 0)
    (hur : lookupUser db.users (userKey r) = some ur) :
    lookupUser (process_referral_commission percent db order now).users (userKey r) =
      some (creditReferrer ur (calculate_commission order.amount percent)) ∧
    lookupUser (process_referral_commission percent
        (process_referral_commission percent db order now) order now2).users (userKey r) =
      some (creditReferrer (creditReferrer ur (calculate_commission order.amount percent))
        (calculate_commission order.amount percent)) := by
  have h1 := process_referral_commission_users percent db order now u ur r hu hr hr0 hur
  obtain ⟨u', hu', hre⟩ :=
    process_referral_commission_purchaser percent db order now u ur r hu hr hr0 hur
  have h2 := process_referral_commission_users percent
    (process_referral_commission percent db order now) order now2 u'
    (creditReferrer ur (calculate_commission order.amount percent)) r
    hu' (hre.trans hr) hr0 h1
  exact ⟨h1, h2⟩

/-- Witness for `commission_second_invocation_credits_again` at the
concrete double-payment state. -/
theorem commission_second_invocation_credits_again_witness :
    lookupUser dbC1.users (userKey orderC1.user_id) = some buyerC1 ∧
    buyerC1.referred_by = some 999 ∧ (999 : Int) ≠ 0 ∧
    lookupUser dbC1.users (userKey (999 : Int)) = some referrerC1 ∧
    (lookupUser (process_referral_commission 10 dbC1 orderC1 "t1").users
        (userKey (999 : Int)) =
      some (creditReferrer referrerC1 (calculate_commission orderC1.amount 10)) ∧
     lookupUser (process_referral_commission 10
        (process_referral_commission 10 dbC1 orderC1 "t1") orderC1 "t2").users
        (userKey (999 : Int)) =
      some (creditReferrer (creditReferrer referrerC1 (calculate_commission orderC1.amount 10))
        (calculate_commission orderC1.amount 10))) :=
  ⟨by decide, rfl, by decide, by decide,
   commission_second_invocation_credits_again 10 dbC1 orderC1 "t1" "t2"
     buyerC1 referrerC1 999 (by decide) rfl (by decide) (by decide)⟩

/-- The per-service effect as the spec words it. -/
def specService (factor : ℚ) (s : Service) : Service :=
  { s with plans := s.plans.map (fun ps => ps.map (specPlanPrice factor)) }

/-- C8: for nonnegative percentages up to 100 and nonnegative old
prices, `bulk_update_prices` returns the number of services that have
plans, rewrites every plan price to `round_down(old_price * factor)`
clamped up to a minimum of exactly 1 (with `factor = 1 ± percent/100`),
and a 100% decrease leaves every affected plan's price equal to
exactly 1. -/
theorem bulk_update_prices_floor_clamp (svcs : List (String × Service)) (p : ℚ)
    (inc : Bool) (hp0 : 0 ≤ p) (hp1 : p ≤ 100)
    (hpos : ∀ s ∈ svcs, ∀ ps, s.2.plans = some ps → ∀ pl ∈ ps, 0 ≤ pl.price) :
    (bulk_update_prices svcs p inc).1 =
      (svcs.filter (fun s => s.2.plans.isSome)).length ∧
    (bulk_update_prices svcs p inc).2 =
      svcs.map (fun s => (s.1, specService (if inc then 1 + p / 100 else 1 - p / 100) s.2)) ∧
    (p = 100 → inc = false →
      ∀ s ∈ (bulk_update_prices svcs p inc).2, ∀ ps, s.2.plans = some ps →
        ∀ pl ∈ ps, pl.price = 1) := by
  have hf : (0 : ℚ) ≤ if inc then 1 + p / 100 else 1 - p / 100 := by
    cases inc <;> simp <;> linarith
  have hspec := bulk_update_services_spec (if inc then 1 + p / 100 else 1 - p / 100) svcs
  have hbp : bulk_update_prices svcs p inc =
      bulk_update_services (if inc then 1 + p / 100 else 1 - p / 100) svcs := rfl
  have hsvc : ∀ s ∈ svcs,
      bulkService (if inc then 1 + p / 100 else 1 - p / 100) s.2 =
        specService (if inc then 1 + p / 100 else 1 - p / 100) s.2 := by
    intro s hs
    unfold bulkService specService
    cases hps : s.2.plans with
    | none => rfl
    | some ps =>
        have hplans : ps.map (bulkPlanPrice (if inc then 1 + p / 100 else 1 - p / 100)) =
            ps.map (specPlanPrice (if inc then 1 + p / 100 else 1 - p / 100)) := by
          apply List.map_congr_left
          intro pl hpl
          unfold bulkPlanPrice specPlanPrice
          rw [bulk_new_price_eq_floor pl.price _ (hpos s hs ps hps pl hpl) hf]
        simp only [Option.map]
        rw [hplans]
  refine ⟨?_, ?_, ?_⟩
  · rw [hbp, hspec]
  · rw [hbp, hspec]
    dsimp only
    apply List.map_congr_left
    intro s hs
    rw [hsvc s hs]
  · intro hp100 hinc
    subst hp100
    subst hinc
    have hz : (if (false : Bool) then 1 + (100 : ℚ) / 100 else 1 - 100 / 100) = 0 := by
      norm_num
    rw [hbp, hspec]
    dsimp only
    intro s hs ps hps pl hpl
    obtain ⟨orig, horig, rfl⟩ := List.mem_map.mp hs
    have hbs : (bulkService (if (false : Bool) then 1 + (100 : ℚ) / 100 else 1 - 100 / 100)
        orig.2).plans =
        orig.2.plans.map (fun ps0 =>
          ps0.map (bulkPlanPrice (if (false : Bool) then 1 + (100 : ℚ) / 100 else 1 - 100 / 100))) :=
      rfl
    rw [hbs] at hps
    cases horigps : orig.2.plans with
    | none => rw [horigps] at hps; simp at hps
    | some ps0 =>
        rw [horigps] at hps
        simp only [Option.map] at hps
        rw [Option.some_inj] at hps
        subst hps
        obtain ⟨pl0, hpl0, rfl⟩ := List.mem_map.mp hpl
        rw [hz]
        unfold bulkPlanPrice
        simp [bulk_new_price_factor_zero]

/-- A two-service catalog: one with two plans (prices 100 and 3), one
without a `plans` key. -/
def svcsC8 : List (String × Service) :=
  [("yt", { name := "YouTube"
            plans := some [{ duration := "1 Month", price := 100 },
                           { duration := "3 Months", price := 3 }] }),
   ("sp", { name := "Spotify" })]

/-- All plan prices of the concrete catalog are nonnegative. -/
theorem svcsC8_prices_nonneg :
    ∀ s ∈ svcsC8, ∀ ps, s.2.plans = some ps → ∀ pl ∈ ps, 0 ≤ pl.price := by
  intro s hs ps hps pl hpl
  simp only [svcsC8, List.mem_cons, List.not_mem_nil, or_false] at hs
  rcases hs with rfl | rfl
  · rw [Option.some_inj] at hps
    subst hps
    simp only [List.mem_cons, List.not_mem_nil, or_false] at hpl
    rcases hpl with rfl | rfl <;> norm_num
  · simp at hps

/-- Witness for `bulk_update_prices_floor_clamp`: a 100% decrease on
the concrete catalog. -/
theorem bulk_update_prices_floor_clamp_witness :
    (0 : ℚ) ≤ 100 ∧ (100 : ℚ) ≤ 100 ∧
    (∀ s ∈ svcsC8, ∀ ps, s.2.plans = some ps → ∀ pl ∈ ps, 0 ≤ pl.price) ∧
    ((bulk_update_prices svcsC8 100 false).1 =
       (svcsC8.filter (fun s => s.2.plans.isSome)).length ∧
     (bulk_update_prices svcsC8 100 false).2 =
       svcsC8.map (fun s =>
         (s.1, specService (if false then 1 + (100 : ℚ) / 100 else 1 - 100 / 100) s.2)) ∧
     ((100 : ℚ) = 100 → false = false →
       ∀ s ∈ (bulk_update_prices svcsC8 100 false).2, ∀ ps, s.2.plans = some ps →
         ∀ pl ∈ ps, pl.price = 1)) :=
  ⟨by norm_num, by norm_num, svcsC8_prices_nonneg,
   bulk_update_prices_floor_clamp svcsC8 100 false (by norm_num) (by norm_num)
     svcsC8_prices_nonneg⟩

end FridayBazar
